import Mathlib

/-!
Shallow embedding of the magicwheels engineering components and proofs about
the properties claimed in the specification.

Source files embedded here:
* `src/pod_model/pod_model/brakes/frictionpad/frictioncoefficient.py`
* `src/pod_model/pod_model/brakes/frictionpad/heatconduction.py`
* `src/pod_model/pod_model/brakes/frictionpad/heatconvective.py`
* `src/pod_model/pod_model/brakes/frictionpad/heatgeneration.py`
* `src/drivetrain/battery.py`

Python floats are embedded as exact numbers: as real numbers where the code
uses `math.exp`, and as rationals elsewhere.  The OpenMDAO options dictionary
is embedded as a value map together with the list of names declared in
`initialize`; reading an undeclared name raises `KeyError` in OpenMDAO, which
is embedded as `Except.error` carrying the offending name.  The transcendental
`math.exp` is kept as an explicit function parameter `E` of the embedding so
that definitions stay executable; the theorems instantiate `E` with
`Real.exp`.
-/

/-- Option names declared by `FrictionCoefficient.initialize`
(frictioncoefficient.py, lines 11-42).  Note the misspelled
"Tempertature" names, exactly as in the source. -/
def fcDeclaredOptions : List String :=
  ["SteadyStateFrictionCoefficient",
   "MultiplicationFactorSpeed",
   "MultiplicationFactorTempertature",
   "ParametricFactorSpeed",
   "ParametricFactorTempertature",
   "OriginalTemperature"]

/-- Reading `self.options[name]`: the value when `name` was declared,
a `KeyError` carrying the name otherwise. -/
def fcOptGet (opts : String → ℝ) (name : String) : Except String ℝ :=
  if fcDeclaredOptions.contains name then Except.ok (opts name)
  else Except.error name

/-- The expression `mu_curr = mu_d0 * velocity_factor * temperature_factor`
computed in `FrictionCoefficient.compute` (frictioncoefficient.py, lines
71-73), with `math.exp` abstracted as `E`. -/
def frictionFormula (E : ℝ → ℝ) (mu_d0 n_v n_t m_v m_t t_o v_curr t_curr : ℝ) : ℝ :=
  mu_d0 * (1 + n_v * E (-(m_v * v_curr))) * (1 + n_t * E (-(m_t * (t_curr - t_o))))

/-- `FrictionCoefficient.compute` (frictioncoefficient.py, lines 58-77):
the six option reads in source order, then the friction formula.  The
output assignment is the `Except.ok` value. -/
def FrictionCoefficient.compute (E : ℝ → ℝ) (opts : String → ℝ)
    (v_curr t_curr : ℝ) : Except String ℝ := do
  let mu_d0 ← fcOptGet opts "SteadyStateFrictionCoefficient"
  let n_v ← fcOptGet opts "MultiplicationFactorSpeed"
  let n_t ← fcOptGet opts "MultiplicationFactorFrictionTempertature"
  let m_v ← fcOptGet opts "ParametricFactorSpeed"
  let m_t ← fcOptGet opts "ParametricFactorFrictionTempertature"
  let t_o ← fcOptGet opts "OriginalTemperature"
  pure (frictionFormula E mu_d0 n_v n_t m_v m_t t_o v_curr t_curr)

/-- C1: the spec says `FrictionCoefficient.compute` sets the output to
`mu0 * (1 + n_v*exp(-m_v*v)) * (1 + n_t*exp(-m_t*(T - T0)))`, equal to
`mu0 * (1+n_v) * (1+n_t)` at `v = 0, T = T0`.  The code instead raises a
`KeyError` on the undeclared option name
`MultiplicationFactorFrictionTempertature` at every input (here evaluated at
`v = 0`, `T = T0 = 1`, all option values 1), so the output is never
assigned; the claimed identity at `v = 0, T = T0` does hold of the friction
formula the code was meant to evaluate. -/
theorem friction_compute_raises_instead_of_formula :
    FrictionCoefficient.compute (fun x => x) (fun _ => 1) 0 1 =
        Except.error "MultiplicationFactorFrictionTempertature" ∧
    ∀ mu_d0 n_v n_t m_v m_t t_o : ℝ,
      frictionFormula Real.exp mu_d0 n_v n_t m_v m_t t_o 0 t_o =
        mu_d0 * (1 + n_v) * (1 + n_t) := by
  constructor
  · rfl
  · intro mu_d0 n_v n_t m_v m_t t_o
    simp [frictionFormula]

/-- C2: for every exponential `E`, option-value map and input,
`FrictionCoefficient.compute` fails with a lookup error on the undeclared
option name `MultiplicationFactorFrictionTempertature` (read at
frictioncoefficient.py line 63); neither it nor
`ParametricFactorFrictionTempertature` is declared in `initialize`, which
declares `MultiplicationFactorTempertature` and
`ParametricFactorTempertature` instead, so the friction formula is never
evaluated and the output `FrictionCoefficient` is never assigned. -/
theorem friction_compute_always_option_lookup_error :
    (∀ (E : ℝ → ℝ) (opts : String → ℝ) (v_curr t_curr : ℝ),
      FrictionCoefficient.compute E opts v_curr t_curr =
        Except.error "MultiplicationFactorFrictionTempertature") ∧
    fcDeclaredOptions.contains "MultiplicationFactorFrictionTempertature" = false ∧
    fcDeclaredOptions.contains "ParametricFactorFrictionTempertature" = false ∧
    fcDeclaredOptions.contains "MultiplicationFactorTempertature" = true ∧
    fcDeclaredOptions.contains "ParametricFactorTempertature" = true := by
  refine ⟨fun E opts v_curr t_curr => rfl, rfl, rfl, rfl, rfl⟩

/-- C9: the friction formula computed in `FrictionCoefficient.compute`
(lines 71-73) is strictly decreasing in the surface velocity whenever
`n_v > 0`, `m_v > 0`, `mu0 > 0` and the temperature factor is positive. -/
theorem friction_formula_strict_anti_in_velocity
    (mu_d0 n_v n_t m_v m_t t_o t v1 v2 : ℝ)
    (hmu : 0 < mu_d0) (hn : 0 < n_v) (hm : 0 < m_v)
    (htf : 0 < 1 + n_t * Real.exp (-(m_t * (t - t_o))))
    (hv : v1 < v2) :
    frictionFormula Real.exp mu_d0 n_v n_t m_v m_t t_o v2 t <
      frictionFormula Real.exp mu_d0 n_v n_t m_v m_t t_o v1 t := by
  unfold frictionFormula
  have h1 : Real.exp (-(m_v * v2)) < Real.exp (-(m_v * v1)) :=
    Real.exp_lt_exp.mpr (neg_lt_neg (mul_lt_mul_of_pos_left hv hm))
  have h2 : 1 + n_v * Real.exp (-(m_v * v2)) <
      1 + n_v * Real.exp (-(m_v * v1)) :=
    add_lt_add_left (mul_lt_mul_of_pos_left h1 hn) 1
  exact mul_lt_mul_of_pos_right (mul_lt_mul_of_pos_left h2 hmu) htf

/-- Witness for C9: at `mu0 = n_v = m_v = m_t = 1`, `n_t = 0`,
`T0 = T = 0`, the formula value at `v = 1` is below the value at `v = 0`. -/
theorem friction_formula_strict_anti_in_velocity_witness :
    frictionFormula Real.exp 1 1 0 1 1 0 1 0 <
      frictionFormula Real.exp 1 1 0 1 1 0 0 0 :=
  friction_formula_strict_anti_in_velocity 1 1 0 1 1 0 0 0 1
    one_pos one_pos one_pos (by simp) zero_lt_one

/-- `HeatConduction.compute` (heatconduction.py, lines 32-46): each failed
`assert` is an `Except.error` with the assertion message; the assertion at
line 40 has no message and is reported by its condition text. -/
def HeatConduction.compute (k_cond area sur_temp pad_temp : ℚ) : Except String ℚ :=
  if k_cond > 0 then
    if area > 0 then
      if pad_temp > sur_temp then
        if -(k_cond * (pad_temp - sur_temp) * area) < 0 then
          Except.ok (-(k_cond * (pad_temp - sur_temp) * area))
        else Except.error "Heat Loss is always a negative quantity"
      else Except.error "pad_temp greater than sur_temp"
    else Except.error "Area must be a positive non-zero quantity"
  else Except.error "Conductance must be positive"

/-- `HeatConvective.compute` (heatconvective.py, lines 32-46), same shape
as conduction with the convective coefficient and surrounding temperature. -/
def HeatConvective.compute (h_conv area sur_temp pad_temp : ℚ) : Except String ℚ :=
  if h_conv > 0 then
    if area > 0 then
      if pad_temp > sur_temp then
        if -(h_conv * (pad_temp - sur_temp) * area) < 0 then
          Except.ok (-(h_conv * (pad_temp - sur_temp) * area))
        else Except.error "Heat Loss is always a negative quantity"
      else Except.error "pad_temp greater than sur_temp"
    else Except.error "Area must be a positive non-zero quantity"
  else Except.error "Convective Coefficient must be positive"

theorem heatConduction_eq_of_pos (c A ts tp : ℚ)
    (hc : 0 < c) (hA : 0 < A) (ht : ts < tp) :
    HeatConduction.compute c A ts tp = Except.ok (-(c * (tp - ts) * A)) := by
  have hpos : 0 < c * (tp - ts) * A :=
    mul_pos (mul_pos hc (sub_pos.mpr ht)) hA
  unfold HeatConduction.compute
  rw [if_pos hc, if_pos hA, if_pos ht, if_pos (neg_lt_zero.mpr hpos)]

theorem heatConvective_eq_of_pos (c A ts tp : ℚ)
    (hc : 0 < c) (hA : 0 < A) (ht : ts < tp) :
    HeatConvective.compute c A ts tp = Except.ok (-(c * (tp - ts) * A)) := by
  have hpos : 0 < c * (tp - ts) * A :=
    mul_pos (mul_pos hc (sub_pos.mpr ht)) hA
  unfold HeatConvective.compute
  rw [if_pos hc, if_pos hA, if_pos ht, if_pos (neg_lt_zero.mpr hpos)]

theorem heatConduction_error_of_invalid (c A ts tp : ℚ)
    (h : tp ≤ ts ∨ A ≤ 0) :
    ∃ e, HeatConduction.compute c A ts tp = Except.error e := by
  unfold HeatConduction.compute
  split_ifs with h1 h2 h3 h4
  · rcases h with h | h
    · exact absurd h3 (not_lt.mpr h)
    · exact absurd h2 (not_lt.mpr h)
  · exact ⟨_, rfl⟩
  · exact ⟨_, rfl⟩
  · exact ⟨_, rfl⟩
  · exact ⟨_, rfl⟩

theorem heatConvective_error_of_invalid (c A ts tp : ℚ)
    (h : tp ≤ ts ∨ A ≤ 0) :
    ∃ e, HeatConvective.compute c A ts tp = Except.error e := by
  unfold HeatConvective.compute
  split_ifs with h1 h2 h3 h4
  · rcases h with h | h
    · exact absurd h3 (not_lt.mpr h)
    · exact absurd h2 (not_lt.mpr h)
  · exact ⟨_, rfl⟩
  · exact ⟨_, rfl⟩
  · exact ⟨_, rfl⟩
  · exact ⟨_, rfl⟩

/-- C3: when the coefficient and area are positive and the pad temperature
strictly exceeds the other temperature, `HeatConduction.compute` and
`HeatConvective.compute` produce a strictly negative `HeatRate`; when the pad
temperature is at most the other temperature or the area is at most zero,
each raises an assertion error. -/
theorem heat_conduction_convective_sign_and_raises (c A ts tp : ℚ) :
    (0 < c → 0 < A → ts < tp →
      (∃ r, HeatConduction.compute c A ts tp = Except.ok r ∧ r < 0) ∧
      (∃ r, HeatConvective.compute c A ts tp = Except.ok r ∧ r < 0)) ∧
    (tp ≤ ts ∨ A ≤ 0 →
      (∃ e, HeatConduction.compute c A ts tp = Except.error e) ∧
      (∃ e, HeatConvective.compute c A ts tp = Except.error e)) := by
  constructor
  · intro hc hA ht
    have hpos : 0 < c * (tp - ts) * A :=
      mul_pos (mul_pos hc (sub_pos.mpr ht)) hA
    exact ⟨⟨_, heatConduction_eq_of_pos c A ts tp hc hA ht, neg_lt_zero.mpr hpos⟩,
           ⟨_, heatConvective_eq_of_pos c A ts tp hc hA ht, neg_lt_zero.mpr hpos⟩⟩
  · intro h
    exact ⟨heatConduction_error_of_invalid c A ts tp h,
           heatConvective_error_of_invalid c A ts tp h⟩

/-- Witness for C3: at coefficient 1, area 1, other temperature 0 and pad
temperature 1 both components return a negative rate; with the temperatures
swapped both raise. -/
theorem heat_conduction_convective_sign_and_raises_witness :
    ((∃ r, HeatConduction.compute 1 1 0 1 = Except.ok r ∧ r < 0) ∧
     (∃ r, HeatConvective.compute 1 1 0 1 = Except.ok r ∧ r < 0)) ∧
    ((∃ e, HeatConduction.compute 1 1 1 0 = Except.error e) ∧
     (∃ e, HeatConvective.compute 1 1 1 0 = Except.error e)) :=
  ⟨(heat_conduction_convective_sign_and_raises 1 1 0 1).1
      (by decide) (by decide) (by decide),
   (heat_conduction_convective_sign_and_raises 1 1 1 0).2
      (Or.inl (by decide))⟩

/-- C7: under the three assertions, `HeatConduction.compute` outputs exactly
`-(k_cond * (pad_temp - sur_temp) * area)`. -/
theorem heat_conduction_formula (k_cond area sur_temp pad_temp : ℚ)
    (hc : 0 < k_cond) (hA : 0 < area) (ht : sur_temp < pad_temp) :
    HeatConduction.compute k_cond area sur_temp pad_temp =
      Except.ok (-(k_cond * (pad_temp - sur_temp) * area)) :=
  heatConduction_eq_of_pos k_cond area sur_temp pad_temp hc hA ht

/-- Witness for C7: conductance 1, area 1, contact temperature 0, pad
temperature 1 give heat rate `-(1 * (1 - 0) * 1)`. -/
theorem heat_conduction_formula_witness :
    HeatConduction.compute 1 1 0 1 = Except.ok (-(1 * (1 - 0) * 1)) :=
  heat_conduction_formula 1 1 0 1 (by decide) (by decide) (by decide)

/-- Messages of the three assertions preceding the final
`assert heat_loss < 0` in heatconduction.py and heatconvective.py. -/
def heatPreAssertMsgs : List String :=
  ["Conductance must be positive",
   "Convective Coefficient must be positive",
   "Area must be a positive non-zero quantity",
   "pad_temp greater than sur_temp"]

/-- C10: in both heat-loss components, every run either fails on one of the
three preceding assertions or returns a strictly negative heat loss; the
failure branch of the final assertion `heat_loss < 0` is unreachable. -/
theorem heat_loss_final_assert_valid (c A ts tp : ℚ) :
    ((∃ e, HeatConduction.compute c A ts tp = Except.error e ∧
        e ∈ heatPreAssertMsgs) ∨
     (∃ r, HeatConduction.compute c A ts tp = Except.ok r ∧ r < 0)) ∧
    ((∃ e, HeatConvective.compute c A ts tp = Except.error e ∧
        e ∈ heatPreAssertMsgs) ∨
     (∃ r, HeatConvective.compute c A ts tp = Except.ok r ∧ r < 0)) := by
  constructor
  · unfold HeatConduction.compute
    split_ifs with h1 h2 h3 h4
    · exact Or.inr ⟨_, rfl, h4⟩
    · exact absurd (neg_lt_zero.mpr
        (mul_pos (mul_pos h1 (sub_pos.mpr h3)) h2)) h4
    · exact Or.inl ⟨_, rfl, by decide⟩
    · exact Or.inl ⟨_, rfl, by decide⟩
    · exact Or.inl ⟨_, rfl, by decide⟩
  · unfold HeatConvective.compute
    split_ifs with h1 h2 h3 h4
    · exact Or.inr ⟨_, rfl, h4⟩
    · exact absurd (neg_lt_zero.mpr
        (mul_pos (mul_pos h1 (sub_pos.mpr h3)) h2)) h4
    · exact Or.inl ⟨_, rfl, by decide⟩
    · exact Or.inl ⟨_, rfl, by decide⟩
    · exact Or.inl ⟨_, rfl, by decide⟩

/-- Outputs of `HeatGeneration.compute`. -/
structure HGOutputs where
  heat_rate_pad : ℚ
  heat_rate_track : ℚ
  deriving DecidableEq

/-- `HeatGeneration.compute` (heatgeneration.py, lines 32-43): asserts
`ratio > 0 and ratio < 1`, then splits `braking_force * surface_velocity`
between pad and track. -/
def HeatGeneration.compute (ratio braking_force surface_velocity : ℚ) :
    Except String HGOutputs :=
  if ratio > 0 ∧ ratio < 1 then
    Except.ok ⟨ratio * (braking_force * surface_velocity),
               (1 - ratio) * (braking_force * surface_velocity)⟩
  else Except.error "ratio greater than 0 and ratio less than 1"

/-- C4: for `0 < r < 1`, `HeatGeneration.compute` outputs
`HeatRatePad = r*F*v` and `HeatRateTrack = (1-r)*F*v`, whose sum is exactly
`F*v`; for `r ≤ 0` or `r ≥ 1` it raises instead. -/
theorem heat_generation_split_and_range_check (F v ratio : ℚ) :
    (0 < ratio → ratio < 1 →
      ∃ out, HeatGeneration.compute ratio F v = Except.ok out ∧
        out.heat_rate_pad = ratio * (F * v) ∧
        out.heat_rate_track = (1 - ratio) * (F * v) ∧
        out.heat_rate_pad + out.heat_rate_track = F * v) ∧
    (ratio ≤ 0 ∨ 1 ≤ ratio →
      ∃ e, HeatGeneration.compute ratio F v = Except.error e) := by
  constructor
  · intro h0 h1
    have hok : HeatGeneration.compute ratio F v =
        Except.ok ⟨ratio * (F * v), (1 - ratio) * (F * v)⟩ := by
      unfold HeatGeneration.compute
      rw [if_pos ⟨h0, h1⟩]
    exact ⟨_, hok, rfl, rfl, by ring⟩
  · intro h
    unfold HeatGeneration.compute
    rw [if_neg]
    · exact ⟨_, rfl⟩
    · rintro ⟨ha, hb⟩
      rcases h with h | h
      · exact absurd ha (not_lt.mpr h)
      · exact absurd hb (not_lt.mpr h)

/-- Witness for C4: at `F = 2`, `v = 3` the ratio `1/2` splits the power 6
into 3 and 3, while the boundary ratios 0 and 1 both raise. -/
theorem heat_generation_split_and_range_check_witness :
    (∃ out, HeatGeneration.compute (1/2) 2 3 = Except.ok out ∧
        out.heat_rate_pad = (1/2) * (2 * 3) ∧
        out.heat_rate_track = (1 - 1/2) * (2 * 3) ∧
        out.heat_rate_pad + out.heat_rate_track = 2 * 3) ∧
    (∃ e, HeatGeneration.compute 0 2 3 = Except.error e) ∧
    (∃ e, HeatGeneration.compute 1 2 3 = Except.error e) :=
  ⟨(heat_generation_split_and_range_check 2 3 (1/2)).1 one_half_pos one_half_lt_one,
   (heat_generation_split_and_range_check 2 3 0).2 (Or.inl (le_refl 0)),
   (heat_generation_split_and_range_check 2 3 1).2 (Or.inr (le_refl 1))⟩

/-- Parameters of the `Battery` component (battery.py, `__init__`,
lines 85-148), in declaration order. -/
structure BatteryParams where
  des_time : ℚ
  time_of_flight : ℚ
  des_power : ℚ
  des_current : ℚ
  q_l : ℚ
  e_full : ℚ
  e_nom : ℚ
  e_exp : ℚ
  q_n : ℚ
  t_exp : ℚ
  t_nom : ℚ
  r : ℚ
  battery_cross_section_area : ℚ
  cell_mass : ℚ
  cell_height : ℚ
  cell_diameter : ℚ

/-- Outputs of the `Battery` component (battery.py, lines 151-176). -/
structure BatteryUnknowns where
  n_cells : ℚ
  output_voltage : ℚ
  battery_mass : ℚ
  battery_volume : ℚ
  battery_cost : ℚ
  battery_length : ℚ

/-- `Battery._calculate_total_discharge` (battery.py, lines 241-255):
integral of a constant load profile. -/
def Battery.calculate_total_discharge (time current : ℚ) : ℚ := time * current

/-- `n_parallel` before the later `np.ceil` reassignment
(battery.py, line 197). -/
def Battery.n_parallel_raw (p : BatteryParams) : ℚ :=
  Battery.calculate_total_discharge p.time_of_flight p.des_current /
    (p.q_n * (1 - p.q_l))

/-- `single_bat_current` (battery.py, line 198). -/
def Battery.single_bat_current (p : BatteryParams) : ℚ :=
  p.des_current / Battery.n_parallel_raw p

/-- `single_bat_discharge` (battery.py, lines 199-200). -/
def Battery.single_bat_discharge (p : BatteryParams) : ℚ :=
  Battery.calculate_total_discharge p.des_time (Battery.single_bat_current p)

/-- `v_batt = func(single_bat_discharge * 1000)` (battery.py, line 208),
with the fitted discharge-curve spline abstracted as `func`. -/
def Battery.v_batt (func : ℚ → ℚ) (p : BatteryParams) : ℚ :=
  func (Battery.single_bat_discharge p * 1000)

/-- `p_bat = v_batt * single_bat_current` (battery.py, line 210). -/
def Battery.p_bat (func : ℚ → ℚ) (p : BatteryParams) : ℚ :=
  Battery.v_batt func p * Battery.single_bat_current p

/-- `energy_cap` (battery.py, line 212), with the quadrature
`x ↦ quad(func, 0, x)[0]` abstracted as `integ`. -/
def Battery.energy_cap (integ : ℚ → ℚ) (p : BatteryParams) : ℚ :=
  integ (Battery.single_bat_discharge p * 1000) / 1000

/-- `n_cells = np.ceil(des_power / p_bat)` (battery.py, lines 215-216),
a ceiling re-cast to a number as `np.ceil` returns a float. -/
def Battery.n_cells_val (func : ℚ → ℚ) (p : BatteryParams) : ℚ :=
  (⌈p.des_power / Battery.p_bat func p⌉ : ℤ)

/-- `n_parallel = np.ceil(n_parallel)` (battery.py, line 217). -/
def Battery.n_parallel_ceil (p : BatteryParams) : ℚ :=
  (⌈Battery.n_parallel_raw p⌉ : ℤ)

/-- `n_series = np.ceil(n_cells / n_parallel)` (battery.py, line 218). -/
def Battery.n_series (func : ℚ → ℚ) (p : BatteryParams) : ℚ :=
  (⌈Battery.n_cells_val func p / Battery.n_parallel_ceil p⌉ : ℤ)

/-- `Battery._check_rep` (battery.py, lines 257-280): every assertion in
the body is commented out, so the check succeeds on all parameters. -/
def Battery.check_rep (_p : BatteryParams) : Except String Unit := Except.ok ()

/-- `Battery.solve_nonlinear` (battery.py, lines 176-239): the invariant
check, the cell-count and capacity calculation, and the six outputs. -/
def Battery.solve_nonlinear (func integ : ℚ → ℚ) (p : BatteryParams) :
    Except String BatteryUnknowns := do
  let _ ← Battery.check_rep p
  let n_cells := Battery.n_cells_val func p
  let energy_cap := Battery.energy_cap integ p
  let battery_mass := energy_cap * n_cells / 265
  let battery_volume := energy_cap * n_cells / 730 * 1000 / 0.9069
  let output_voltage := Battery.n_series func p * p.e_nom
  let battery_cost := n_cells * 12.95
  let battery_length := battery_volume / p.battery_cross_section_area
  let _ ← Battery.check_rep p
  pure ⟨n_cells, output_voltage, battery_mass, battery_volume,
        battery_cost, battery_length⟩

theorem Battery.solve_nonlinear_eq (func integ : ℚ → ℚ) (p : BatteryParams) :
    Battery.solve_nonlinear func integ p = Except.ok
      ⟨Battery.n_cells_val func p,
       Battery.n_series func p * p.e_nom,
       Battery.energy_cap integ p * Battery.n_cells_val func p / 265,
       Battery.energy_cap integ p * Battery.n_cells_val func p / 730 * 1000 / 0.9069,
       Battery.n_cells_val func p * 12.95,
       Battery.energy_cap integ p * Battery.n_cells_val func p / 730 * 1000 / 0.9069 /
         p.battery_cross_section_area⟩ := rfl

theorem rat_ceil_cast (a c : ℚ) (z : ℤ) (hz : (z : ℚ) = c)
    (h1 : c - 1 < a) (h2 : a ≤ c) : ((⌈a⌉ : ℤ) : ℚ) = c := by
  subst hz
  exact_mod_cast Int.ceil_eq_iff.mpr ⟨h1, h2⟩

/-- C5 counterexample: the claim says `n_cells >= 1` on every run that
completes, but with design power `-6.3` W (and the remaining parameters at
their defaults, a unit spline and unit quadrature) `solve_nonlinear`
completes with `n_cells = -2 < 1`. -/
theorem battery_n_cells_negative_counterexample :
    (Battery.solve_nonlinear (fun _ => 1) (fun _ => 1)
        ⟨1, 1, -6.3, 1, 0.1, 1.4, 1.2, 1.27, 3.5, 1, 4.3, 0.0046,
         15000, 170, 61, 33⟩).map BatteryUnknowns.n_cells =
      Except.ok (-2) ∧ (-2 : ℚ) < 1 := by
  have hnc : Battery.n_cells_val (fun _ => 1)
      ⟨1, 1, -6.3, 1, 0.1, 1.4, 1.2, 1.27, 3.5, 1, 4.3, 0.0046,
       15000, 170, 61, 33⟩ = -2 := by
    unfold Battery.n_cells_val
    exact rat_ceil_cast _ _ (-2) (by norm_num)
      (by norm_num [Battery.p_bat, Battery.v_batt, Battery.single_bat_current,
        Battery.single_bat_discharge, Battery.n_parallel_raw,
        Battery.calculate_total_discharge])
      (by norm_num [Battery.p_bat, Battery.v_batt, Battery.single_bat_current,
        Battery.single_bat_discharge, Battery.n_parallel_raw,
        Battery.calculate_total_discharge])
  refine ⟨?_, by norm_num⟩
  rw [Battery.solve_nonlinear_eq]
  simp only [Except.map]
  rw [hnc]

/-- C5 amended: on every run of `Battery.solve_nonlinear` that completes,
`n_cells` is integer-valued, and it is at least 1 exactly when the ratio
`des_power / p_bat` being ceiled is positive (e.g. for positive design power
and positive per-cell power); for other inputs it can be zero or negative. -/
theorem battery_n_cells_integer_and_conditionally_positive
    (func integ : ℚ → ℚ) (p : BatteryParams) (out : BatteryUnknowns)
    (h : Battery.solve_nonlinear func integ p = Except.ok out) :
    (∃ k : ℤ, out.n_cells = (k : ℚ)) ∧
    (0 < p.des_power / Battery.p_bat func p → 1 ≤ out.n_cells) := by
  rw [Battery.solve_nonlinear_eq] at h
  injection h with h
  subst h
  dsimp only
  constructor
  · exact ⟨⌈p.des_power / Battery.p_bat func p⌉, rfl⟩
  · intro hpos
    have h1 : (0 : ℤ) < ⌈p.des_power / Battery.p_bat func p⌉ :=
      Int.ceil_pos.mpr hpos
    have h2 : (1 : ℤ) ≤ ⌈p.des_power / Battery.p_bat func p⌉ := by omega
    unfold Battery.n_cells_val
    exact_mod_cast h2

/-- Witness for the amended C5: with design power `6.3` W and otherwise
default parameters, the run completes with an integer-valued cell count of
at least 1. -/
theorem battery_n_cells_integer_and_conditionally_positive_witness :
    ∃ out, Battery.solve_nonlinear (fun _ => 1) (fun _ => 1)
        ⟨1, 1, 6.3, 1, 0.1, 1.4, 1.2, 1.27, 3.5, 1, 4.3, 0.0046,
         15000, 170, 61, 33⟩ = Except.ok out ∧
      (∃ k : ℤ, out.n_cells = (k : ℚ)) ∧ 1 ≤ out.n_cells := by
  refine ⟨_, rfl, ?_⟩
  have h := battery_n_cells_integer_and_conditionally_positive
    (fun _ => 1) (fun _ => 1)
    ⟨1, 1, 6.3, 1, 0.1, 1.4, 1.2, 1.27, 3.5, 1, 4.3, 0.0046,
     15000, 170, 61, 33⟩ _ rfl
  exact ⟨h.1, h.2 (by norm_num [Battery.p_bat, Battery.v_batt,
    Battery.single_bat_current, Battery.single_bat_discharge,
    Battery.n_parallel_raw, Battery.calculate_total_discharge])⟩

/-- C6: `Battery` performs no input validation: `_check_rep` succeeds on all
parameters (every assertion is commented out) and `solve_nonlinear` completes
on every input, including physically invalid ones; e.g. with design power
`-12.6` W it silently produces the nonsensical cell count `-4`. -/
theorem battery_no_input_validation :
    (∀ p : BatteryParams, Battery.check_rep p = Except.ok ()) ∧
    (∀ (func integ : ℚ → ℚ) (p : BatteryParams),
      ∃ out, Battery.solve_nonlinear func integ p = Except.ok out) ∧
    (Battery.solve_nonlinear (fun _ => 1) (fun _ => 1)
        ⟨1, 1, -12.6, 1, 0.1, 1.4, 1.2, 1.27, 3.5, 1, 4.3, 0.0046,
         15000, 170, 61, 33⟩).map BatteryUnknowns.n_cells =
      Except.ok (-4) ∧ (-4 : ℚ) < 0 := by
  refine ⟨fun p => rfl, fun func integ p => ⟨_, rfl⟩, ?_, by norm_num⟩
  have hnc : Battery.n_cells_val (fun _ => 1)
      ⟨1, 1, -12.6, 1, 0.1, 1.4, 1.2, 1.27, 3.5, 1, 4.3, 0.0046,
       15000, 170, 61, 33⟩ = -4 := by
    unfold Battery.n_cells_val
    exact rat_ceil_cast _ _ (-4) (by norm_num)
      (by norm_num [Battery.p_bat, Battery.v_batt, Battery.single_bat_current,
        Battery.single_bat_discharge, Battery.n_parallel_raw,
        Battery.calculate_total_discharge])
      (by norm_num [Battery.p_bat, Battery.v_batt, Battery.single_bat_current,
        Battery.single_bat_discharge, Battery.n_parallel_raw,
        Battery.calculate_total_discharge])
  rw [Battery.solve_nonlinear_eq]
  simp only [Except.map]
  rw [hnc]

/-- C8: on every completed run, `battery_mass` and `battery_volume` equal
`n_cells` times a factor that does not depend on `n_cells`
(`energy_cap / 265` and `energy_cap / 730 * 1000 / 0.9069` respectively);
hence for two runs with the same energy capacity and doubled `n_cells`,
mass and volume double. -/
theorem battery_mass_volume_linear_in_n_cells
    (f1 i1 f2 i2 : ℚ → ℚ) (p1 p2 : BatteryParams) (o1 o2 : BatteryUnknowns)
    (h1 : Battery.solve_nonlinear f1 i1 p1 = Except.ok o1)
    (h2 : Battery.solve_nonlinear f2 i2 p2 = Except.ok o2)
    (hec : Battery.energy_cap i2 p2 = Battery.energy_cap i1 p1)
    (hnc : o2.n_cells = 2 * o1.n_cells) :
    o1.battery_mass = o1.n_cells * (Battery.energy_cap i1 p1 / 265) ∧
    o1.battery_volume = o1.n_cells *
      (Battery.energy_cap i1 p1 / 730 * 1000 / 0.9069) ∧
    o2.battery_mass = 2 * o1.battery_mass ∧
    o2.battery_volume = 2 * o1.battery_volume := by
  rw [Battery.solve_nonlinear_eq] at h1 h2
  injection h1 with h1
  injection h2 with h2
  subst h1
  subst h2
  dsimp only at hnc ⊢
  refine ⟨by ring, by ring, ?_, ?_⟩
  · rw [hec, hnc]; ring
  · rw [hec, hnc]; ring

/-- Witness for C8: two runs with default-shaped parameters and design
powers `6.3` W and `12.6` W have the same energy capacity and cell counts
2 and 4; the mass and volume of the second are twice those of the first. -/
theorem battery_mass_volume_linear_in_n_cells_witness :
    ∃ o1 o2,
      Battery.solve_nonlinear (fun _ => 1) (fun _ => 1)
        ⟨1, 1, 6.3, 1, 0.1, 1.4, 1.2, 1.27, 3.5, 1, 4.3, 0.0046,
         15000, 170, 61, 33⟩ = Except.ok o1 ∧
      Battery.solve_nonlinear (fun _ => 1) (fun _ => 1)
        ⟨1, 1, 12.6, 1, 0.1, 1.4, 1.2, 1.27, 3.5, 1, 4.3, 0.0046,
         15000, 170, 61, 33⟩ = Except.ok o2 ∧
      o1.battery_mass = o1.n_cells *
        (Battery.energy_cap (fun _ => 1)
          ⟨1, 1, 6.3, 1, 0.1, 1.4, 1.2, 1.27, 3.5, 1, 4.3, 0.0046,
           15000, 170, 61, 33⟩ / 265) ∧
      o2.battery_mass = 2 * o1.battery_mass ∧
      o2.battery_volume = 2 * o1.battery_volume := by
  refine ⟨_, _, rfl, rfl, ?_⟩
  have h := battery_mass_volume_linear_in_n_cells
    (fun _ => 1) (fun _ => 1) (fun _ => 1) (fun _ => 1)
    ⟨1, 1, 6.3, 1, 0.1, 1.4, 1.2, 1.27, 3.5, 1, 4.3, 0.0046,
     15000, 170, 61, 33⟩
    ⟨1, 1, 12.6, 1, 0.1, 1.4, 1.2, 1.27, 3.5, 1, 4.3, 0.0046,
     15000, 170, 61, 33⟩ _ _ rfl rfl rfl ?_
  · exact ⟨h.1, h.2.2.1, h.2.2.2⟩
  · show Battery.n_cells_val (fun _ => 1)
        ⟨1, 1, 12.6, 1, 0.1, 1.4, 1.2, 1.27, 3.5, 1, 4.3, 0.0046,
         15000, 170, 61, 33⟩ =
      2 * Battery.n_cells_val (fun _ => 1)
        ⟨1, 1, 6.3, 1, 0.1, 1.4, 1.2, 1.27, 3.5, 1, 4.3, 0.0046,
         15000, 170, 61, 33⟩
    have e1 : Battery.n_cells_val (fun _ => 1)
        ⟨1, 1, 6.3, 1, 0.1, 1.4, 1.2, 1.27, 3.5, 1, 4.3, 0.0046,
         15000, 170, 61, 33⟩ = 2 := by
      unfold Battery.n_cells_val
      exact rat_ceil_cast _ _ 2 (by norm_num)
        (by norm_num [Battery.p_bat, Battery.v_batt, Battery.single_bat_current,
          Battery.single_bat_discharge, Battery.n_parallel_raw,
          Battery.calculate_total_discharge])
        (by norm_num [Battery.p_bat, Battery.v_batt, Battery.single_bat_current,
          Battery.single_bat_discharge, Battery.n_parallel_raw,
          Battery.calculate_total_discharge])
    have e2 : Battery.n_cells_val (fun _ => 1)
        ⟨1, 1, 12.6, 1, 0.1, 1.4, 1.2, 1.27, 3.5, 1, 4.3, 0.0046,
         15000, 170, 61, 33⟩ = 4 := by
      unfold Battery.n_cells_val
      exact rat_ceil_cast _ _ 4 (by norm_num)
        (by norm_num [Battery.p_bat, Battery.v_batt, Battery.single_bat_current,
          Battery.single_bat_discharge, Battery.n_parallel_raw,
          Battery.calculate_total_discharge])
        (by norm_num [Battery.p_bat, Battery.v_batt, Battery.single_bat_current,
          Battery.single_bat_discharge, Battery.n_parallel_raw,
          Battery.calculate_total_discharge])
    rw [e1, e2]
    norm_num
